import Mathlib

/-!
Shallow embedding of the dlock distributed-lock client (package dlock,
file dlock.go).  The repository holds two variants of the same client:
the current `Dlock` type (with a `PermanentRelease` flag) and the legacy
`Client` type.  The external consul collaborator is modelled by an `Env`
record holding the responses it gives during one acquisition tick; the
Go channels are modelled by events recorded in a run trace, and the two
background goroutines started on a successful attach (periodic session
renewal and the release watcher) are modelled by the effects record that
`acquireLock` returns.  Durations are nanoseconds, as in Go
`time.Duration`.
-/

namespace DlockSpec

/-- Error values coming back from the consul collaborator; Go `error`
values are opaque here, modelled as strings. -/
abbrev Err := String

/-- The caller supplied `map[string]string` value map, modelled as an
association list; `getKey` finds the first entry for a key. -/
abbrev ValueMap := List (String × String)

/-- The key that `RetryLockAcquire` stamps on every tick:
`lockAcquisitionTime`. -/
def lockTimeKey : String := "lockAcquisitionTime"

/-- Go map assignment `m[k] = val`: overwrite the entry when the key is
present, append it otherwise. -/
def setKey : ValueMap → String → String → ValueMap
  | [], k, val => [(k, val)]
  | (k0, v0) :: rest, k, val =>
      if k0 = k then (k, val) :: rest else (k0, v0) :: setKey rest k val

/-- Go map lookup `m[k]`. -/
def getKey : ValueMap → String → Option String
  | [], _ => none
  | (k0, v0) :: rest, k => if k0 = k then some v0 else getKey rest k

deriving instance DecidableEq for Except

/-- The collaborator responses available during one tick of the retry
loop (plus the destroy response, used by `DestroySession`):
`checksResult` for `Agent().Checks()`, `createResult` for
`Session().Create`, `marshalOk` for `json.Marshal` (a failure is only
logged, never fatal), `lockOptsResult` for `LockOpts`, `infoResult` for
the `(entry, err)` pair of `Session().Info`, `lockResult` for
`lock.Lock(nil)` (`true` means a non-nil ownership channel was
returned), `destroyResult` for `Session().Destroy`, and `now` for the
RFC-3339 rendering of `time.Now()` at the start of the tick. -/
structure Env where
  now : String
  checksResult : Except Err (List String)
  createResult : Except Err String
  marshalOk : Bool
  lockOptsResult : Except Err Unit
  infoResult : Option Unit × Option Err
  lockResult : Except Err Bool
  destroyResult : Option Err
deriving DecidableEq

/-- The current client variant (struct `Dlock`). -/
structure Dlock where
  Key : String
  SessionID : String
  LockRetryInterval : Nat
  SessionTTL : Nat
  PermanentRelease : Bool
deriving DecidableEq

/-- The legacy client variant (struct `Client`); it has no
`PermanentRelease` field. -/
structure Client where
  Key : String
  SessionID : String
  LockRetryInterval : Nat
  SessionTTL : Nat
deriving DecidableEq

/-- Nanoseconds in one second, the unit of Go `time.Duration`. -/
def nsPerSecond : Nat := 1000000000

/-- `DefaultLockRetryInterval = 30 * time.Second` (both variants). -/
def DefaultLockRetryInterval : Nat := 30 * nsPerSecond

/-- `DefautSessionTTL = 5 * time.Minute` in the current variant. -/
def Dlock.DefautSessionTTL : Nat := 5 * 60 * nsPerSecond

/-- `DefautSessionTTL = 60 * 60 * 24 * time.Second` in the legacy
variant. -/
def Client.DefautSessionTTL : Nat := 60 * 60 * 24 * nsPerSecond

/-- The sequential body of the release-watcher goroutine armed on a
successful attach. -/
inductive WatcherStep where
  | waitOwnershipEnd
  | logReleased
  | closeRenewalCancel
  | sendReleased
deriving DecidableEq

/-- Watcher body of the current variant: wait on the ownership channel,
log, `close(doneCh)` (cancelling `RenewPeriodic`), then the blocking
send on `released`. -/
def releaseWatcherBody : List WatcherStep :=
  [WatcherStep.waitOwnershipEnd, WatcherStep.logReleased,
   WatcherStep.closeRenewalCancel, WatcherStep.sendReleased]

/-- Watcher body of the legacy variant: no renewal task exists, so
nothing is cancelled before the send on `released`. -/
def clientWatcherBody : List WatcherStep :=
  [WatcherStep.waitOwnershipEnd, WatcherStep.logReleased,
   WatcherStep.sendReleased]

/-- Position of the first occurrence of a step in a watcher body
(length of the list when absent). -/
def posOf (x : WatcherStep) : List WatcherStep → Nat
  | [] => 0
  | e :: rest => if e = x then 0 else posOf x rest + 1

/-- Side effects of one `acquireLock` call: the session id created by
`recreateSession` (if any), whether the `RenewPeriodic` goroutine was
started, and the body of the release-watcher goroutine armed (if
any). -/
structure AcqEffects where
  sessionCreated : Option String
  renewalStarted : Bool
  watcher : Option (List WatcherStep)
deriving DecidableEq

/-- No side effects. -/
def noEffects : AcqEffects := ⟨none, false, none⟩

/-- Result of one `acquireLock` call: the updated client state, the
`(bool, error)` pair returned, and the side effects. -/
structure AcqResult (σ : Type) where
  state : σ
  lock : Bool
  err : Option Err
  effects : AcqEffects
deriving DecidableEq

/-- `createSession(client, consulKey, ttl)`: queries the agent checks,
builds the check list `serfHealth` plus every configured agent check,
and asks the collaborator for a new session (identical text in both
repository variants). -/
def createSession (env : Env) (consulKey : String) (ttl : Nat) : Except Err String :=
  match env.checksResult with
  | Except.error e => Except.error e
  | Except.ok agentChecks =>
      let _checks := "serfHealth" :: agentChecks
      match env.createResult with
      | Except.error e => Except.error e
      | Except.ok sessionID => Except.ok sessionID

/-- `(d *Dlock) acquireLock(value, released)`: recreate the session when
`SessionID` is empty, marshal the value (failure only logged), build the
lock options, query session liveness (a nil entry with nil error clears
`SessionID` and returns `(false, nil)`), then try the one-shot lock; on
a non-nil ownership channel it starts `RenewPeriodic` with a `doneCh`
cancellation channel, arms the release watcher, and returns
`(true, nil)`. -/
def Dlock.acquireLock (d : Dlock) (env : Env) (value : ValueMap) : AcqResult Dlock :=
  let step : Except Err (Dlock × Option String) :=
    if d.SessionID = "" then
      match createSession env d.Key d.SessionTTL with
      | Except.error e => Except.error e
      | Except.ok sid => Except.ok ({ d with SessionID := sid }, some sid)
    else Except.ok (d, none)
  match step with
  | Except.error e => ⟨d, false, some e, noEffects⟩
  | Except.ok (d1, created) =>
    let _b := (value, env.marshalOk)
    match env.lockOptsResult with
    | Except.error e => ⟨d1, false, some e, { noEffects with sessionCreated := created }⟩
    | Except.ok _ =>
      match env.infoResult with
      | (none, none) =>
          ⟨{ d1 with SessionID := "" }, false, none,
           { noEffects with sessionCreated := created }⟩
      | (_, some e) => ⟨d1, false, some e, { noEffects with sessionCreated := created }⟩
      | (some _, none) =>
        match env.lockResult with
        | Except.error e => ⟨d1, false, some e, { noEffects with sessionCreated := created }⟩
        | Except.ok true =>
            ⟨d1, true, none,
             { sessionCreated := created, renewalStarted := true,
               watcher := some releaseWatcherBody }⟩
        | Except.ok false => ⟨d1, false, none, { noEffects with sessionCreated := created }⟩

/-- `(c *Client) acquireLock(value, released)`: textually identical to
the current variant up to the success branch, where the legacy variant
starts no renewal goroutine and its watcher only logs and sends on
`released`. -/
def Client.acquireLock (c : Client) (env : Env) (value : ValueMap) : AcqResult Client :=
  let step : Except Err (Client × Option String) :=
    if c.SessionID = "" then
      match createSession env c.Key c.SessionTTL with
      | Except.error e => Except.error e
      | Except.ok sid => Except.ok ({ c with SessionID := sid }, some sid)
    else Except.ok (c, none)
  match step with
  | Except.error e => ⟨c, false, some e, noEffects⟩
  | Except.ok (c1, created) =>
    let _b := (value, env.marshalOk)
    match env.lockOptsResult with
    | Except.error e => ⟨c1, false, some e, { noEffects with sessionCreated := created }⟩
    | Except.ok _ =>
      match env.infoResult with
      | (none, none) =>
          ⟨{ c1 with SessionID := "" }, false, none,
           { noEffects with sessionCreated := created }⟩
      | (_, some e) => ⟨c1, false, some e, { noEffects with sessionCreated := created }⟩
      | (some _, none) =>
        match env.lockResult with
        | Except.error e => ⟨c1, false, some e, { noEffects with sessionCreated := created }⟩
        | Except.ok true =>
            ⟨c1, true, none,
             { sessionCreated := created, renewalStarted := false,
               watcher := some clientWatcherBody }⟩
        | Except.ok false => ⟨c1, false, none, { noEffects with sessionCreated := created }⟩

/-- `(d *Dlock) DestroySession()`: with an empty `SessionID` it only
logs and returns nil without calling the collaborator (third component
`false`); otherwise it calls `Session().Destroy`, propagates an error
unchanged, and on success sets `PermanentRelease` (leaving `SessionID`
in place, later logged as the last session id). -/
def Dlock.DestroySession (d : Dlock) (env : Env) : Dlock × Option Err × Bool :=
  if d.SessionID = "" then (d, none, false)
  else
    match env.destroyResult with
    | some e => (d, some e, true)
    | none => ({ d with PermanentRelease := true }, none, true)

/-- `(c *Client) DestroySession()`: same as the current variant except
that nothing is recorded on success (the legacy variant has no
`PermanentRelease` field). -/
def Client.DestroySession (c : Client) (env : Env) : Client × Option Err × Bool :=
  if c.SessionID = "" then (c, none, false)
  else
    match env.destroyResult with
    | some e => (c, some e, true)
    | none => (c, none, true)

/-- Observable events of one run of the retry loop: the stamp of the
value map, an `acquireLock` attempt, a successful attach, `ticker.Stop`
and the blocking send on the `acquired` channel. -/
inductive REvent where
  | stamp
  | attempt
  | attachSuccess
  | tickerStop
  | acquiredSend
deriving DecidableEq

/-- Number of occurrences of an event in a trace. -/
def countEv (x : REvent) : List REvent → Nat
  | [] => 0
  | e :: rest => (if e = x then 1 else 0) + countEv x rest

/-- Checks that each `attachSuccess` in a trace is followed by exactly
`ticker.Stop` and the `acquired` send and then the end of the run: no
further acquisition attempt follows a successful attach. -/
def tailAfterSuccessOk : List REvent → Bool
  | [] => true
  | REvent.attachSuccess :: rest =>
      decide (rest = [REvent.tickerStop, REvent.acquiredSend])
  | _ :: rest => tailAfterSuccessOk rest

/-- Result of one run of the retry loop: the final client state, the
caller value map after its in-place mutations, the event trace, and the
list of attempts made (the tick environment paired with the exact value
map handed to `acquireLock` on that tick). -/
structure RunResult (σ : Type) where
  final : σ
  value : ValueMap
  trace : List REvent
  attempts : List (Env × ValueMap)
deriving DecidableEq

/-- The `for ; true; <-ticker.C` loop body of the current variant, one
recursion step per tick environment: stamp the value map, call
`acquireLock`; on an error or a failed attach continue with the next
tick; on success stop the ticker, send on `acquired` and break. -/
def Dlock.retryLoop (d : Dlock) (v : ValueMap) : List Env → RunResult Dlock
  | [] => ⟨d, v, [], []⟩
  | e :: rest =>
    let v1 := setKey v lockTimeKey e.now
    let r := Dlock.acquireLock d e v1
    if r.err.isNone && r.lock then
      ⟨r.state, v1,
       [REvent.stamp, REvent.attempt, REvent.attachSuccess,
        REvent.tickerStop, REvent.acquiredSend], [(e, v1)]⟩
    else
      let k := Dlock.retryLoop r.state v1 rest
      ⟨k.final, k.value, REvent.stamp :: REvent.attempt :: k.trace, (e, v1) :: k.attempts⟩

/-- `(d *Dlock) RetryLockAcquire(value, acquired, released)`: when
`PermanentRelease` is set it only logs and returns at once; otherwise it
runs the ticker loop. -/
def Dlock.RetryLockAcquire (d : Dlock) (value : ValueMap) (envs : List Env) :
    RunResult Dlock :=
  if d.PermanentRelease then ⟨d, value, [], []⟩
  else Dlock.retryLoop d value envs

/-- The legacy loop body: identical steps; after a success the source
has no `break`, but the ticker is stopped so the next `<-ticker.C`
blocks forever, hence no further attempts happen, which this model
renders by ending the run. -/
def Client.retryLoop (c : Client) (v : ValueMap) : List Env → RunResult Client
  | [] => ⟨c, v, [], []⟩
  | e :: rest =>
    let v1 := setKey v lockTimeKey e.now
    let r := Client.acquireLock c e v1
    if r.err.isNone && r.lock then
      ⟨r.state, v1,
       [REvent.stamp, REvent.attempt, REvent.attachSuccess,
        REvent.tickerStop, REvent.acquiredSend], [(e, v1)]⟩
    else
      let k := Client.retryLoop r.state v1 rest
      ⟨k.final, k.value, REvent.stamp :: REvent.attempt :: k.trace, (e, v1) :: k.attempts⟩

/-- `(c *Client) RetryLockAcquire(value, acquired, released)`: the
legacy variant has no permanent-release guard. -/
def Client.RetryLockAcquire (c : Client) (value : ValueMap) (envs : List Env) :
    RunResult Client :=
  Client.retryLoop c value envs

/-- Field-wise mapping of the current client state onto the legacy one
(dropping the `PermanentRelease` flag), used to compare the two
variants. -/
def toClient (d : Dlock) : Client :=
  ⟨d.Key, d.SessionID, d.LockRetryInterval, d.SessionTTL⟩

/-- A tick on which every collaborator call succeeds and the lock is
attached. -/
def envAttachOk : Env :=
  { now := "2018-05-20T10:00:00Z"
    checksResult := Except.ok []
    createResult := Except.ok "sess-1"
    marshalOk := true
    lockOptsResult := Except.ok ()
    infoResult := (some (), none)
    lockResult := Except.ok true
    destroyResult := none }

/-- A tick on which `Session().Info` reports the session gone
(nil entry, nil error). -/
def envSessionGone : Env :=
  { envAttachOk with infoResult := (none, none) }

/-- A tick on which the lock is contended: everything succeeds but
`lock.Lock` yields no ownership. -/
def envNoOwnership : Env :=
  { envAttachOk with lockResult := Except.ok false }

/-- A tick on which `Session().Destroy` fails. -/
def envDestroyErr : Env :=
  { envAttachOk with destroyResult := some "destroy failed" }

/-- A concrete current-variant client state holding session `sess-9`. -/
def dlockEx : Dlock := ⟨"LockKV", "sess-9", 30, 300, false⟩

/-- A concrete legacy-variant client state holding session `sess-9`. -/
def clientEx : Client := ⟨"LockKV", "sess-9", 30, 300⟩

/-- A concrete current-variant client state with no session. -/
def dlockEmpty : Dlock := ⟨"LockKV", "", 30, 300, false⟩

/-- A concrete legacy-variant client state with no session. -/
def clientEmpty : Client := ⟨"LockKV", "", 30, 300⟩

/-! Helper lemmas about the value map. -/

theorem getKey_setKey_self (m : ValueMap) (k val : String) :
    getKey (setKey m k val) k = some val := by
  induction m with
  | nil => simp [setKey, getKey]
  | cons p rest ih =>
      obtain ⟨k0, v0⟩ := p
      by_cases h : k0 = k
      · simp [setKey, getKey, h]
      · simp [setKey, getKey, h, ih]

theorem getKey_setKey_ne (m : ValueMap) (k val k0 : String) (h : k0 ≠ k) :
    getKey (setKey m k val) k0 = getKey m k0 := by
  have h2 : ¬ (k = k0) := fun hh => h (Eq.symm hh)
  induction m with
  | nil => simp [setKey, getKey, h2]
  | cons p rest ih =>
      obtain ⟨k1, v1⟩ := p
      by_cases h1 : k1 = k
      · subst h1
        simp [setKey, getKey, h2]
      · by_cases h3 : k1 = k0
        · simp [setKey, getKey, h1, h3, h]
        · simp [setKey, getKey, h1, h3, ih]

/-! Helper lemmas about the retry loops. -/

theorem dlock_retryLoop_count (envs : List Env) (d : Dlock) (v : ValueMap) :
    countEv REvent.acquiredSend (Dlock.retryLoop d v envs).trace
      = countEv REvent.attachSuccess (Dlock.retryLoop d v envs).trace := by
  induction envs generalizing d v with
  | nil => rfl
  | cons e rest ih =>
      simp only [Dlock.retryLoop]
      split
      · rfl
      · simp [countEv, ih]

theorem client_retryLoop_count (envs : List Env) (c : Client) (v : ValueMap) :
    countEv REvent.acquiredSend (Client.retryLoop c v envs).trace
      = countEv REvent.attachSuccess (Client.retryLoop c v envs).trace := by
  induction envs generalizing c v with
  | nil => rfl
  | cons e rest ih =>
      simp only [Client.retryLoop]
      split
      · rfl
      · simp [countEv, ih]

theorem dlock_retryLoop_tailOk (envs : List Env) (d : Dlock) (v : ValueMap) :
    tailAfterSuccessOk (Dlock.retryLoop d v envs).trace = true := by
  induction envs generalizing d v with
  | nil => rfl
  | cons e rest ih =>
      simp only [Dlock.retryLoop]
      split
      · rfl
      · simp [tailAfterSuccessOk, ih]

theorem client_retryLoop_tailOk (envs : List Env) (c : Client) (v : ValueMap) :
    tailAfterSuccessOk (Client.retryLoop c v envs).trace = true := by
  induction envs generalizing c v with
  | nil => rfl
  | cons e rest ih =>
      simp only [Client.retryLoop]
      split
      · rfl
      · simp [tailAfterSuccessOk, ih]

theorem dlock_retryLoop_frame (envs : List Env) (d : Dlock) (v : ValueMap)
    (k : String) (hk : k ≠ lockTimeKey) :
    getKey (Dlock.retryLoop d v envs).value k = getKey v k := by
  induction envs generalizing d v with
  | nil => rfl
  | cons e rest ih =>
      simp only [Dlock.retryLoop]
      split
      · exact getKey_setKey_ne v lockTimeKey e.now k hk
      · rw [ih]
        exact getKey_setKey_ne v lockTimeKey e.now k hk

theorem client_retryLoop_frame (envs : List Env) (c : Client) (v : ValueMap)
    (k : String) (hk : k ≠ lockTimeKey) :
    getKey (Client.retryLoop c v envs).value k = getKey v k := by
  induction envs generalizing c v with
  | nil => rfl
  | cons e rest ih =>
      simp only [Client.retryLoop]
      split
      · exact getKey_setKey_ne v lockTimeKey e.now k hk
      · rw [ih]
        exact getKey_setKey_ne v lockTimeKey e.now k hk

theorem dlock_retryLoop_stamped (rest : List Env) (e : Env) (d : Dlock) (v : ValueMap) :
    ∃ e2, e2 ∈ e :: rest ∧
      getKey (Dlock.retryLoop d v (e :: rest)).value lockTimeKey = some e2.now := by
  induction rest generalizing e d v with
  | nil =>
      refine ⟨e, List.mem_cons_self e [], ?_⟩
      simp only [Dlock.retryLoop]
      split
      · exact getKey_setKey_self v lockTimeKey e.now
      · exact getKey_setKey_self v lockTimeKey e.now
  | cons f rest2 ih =>
      simp only [Dlock.retryLoop]
      split
      · exact ⟨e, List.mem_cons_self e _, getKey_setKey_self v lockTimeKey e.now⟩
      · obtain ⟨e2, hm, hv⟩ :=
          ih f (Dlock.acquireLock d e (setKey v lockTimeKey e.now)).state
            (setKey v lockTimeKey e.now)
        exact ⟨e2, List.mem_cons_of_mem e hm, hv⟩

theorem client_retryLoop_stamped (rest : List Env) (e : Env) (c : Client) (v : ValueMap) :
    ∃ e2, e2 ∈ e :: rest ∧
      getKey (Client.retryLoop c v (e :: rest)).value lockTimeKey = some e2.now := by
  induction rest generalizing e c v with
  | nil =>
      refine ⟨e, List.mem_cons_self e [], ?_⟩
      simp only [Client.retryLoop]
      split
      · exact getKey_setKey_self v lockTimeKey e.now
      · exact getKey_setKey_self v lockTimeKey e.now
  | cons f rest2 ih =>
      simp only [Client.retryLoop]
      split
      · exact ⟨e, List.mem_cons_self e _, getKey_setKey_self v lockTimeKey e.now⟩
      · obtain ⟨e2, hm, hv⟩ :=
          ih f (Client.acquireLock c e (setKey v lockTimeKey e.now)).state
            (setKey v lockTimeKey e.now)
        exact ⟨e2, List.mem_cons_of_mem e hm, hv⟩

theorem dlock_retryLoop_attempts_stamped (envs : List Env) (d : Dlock) (v : ValueMap)
    (p : Env × ValueMap) (hp : p ∈ (Dlock.retryLoop d v envs).attempts) :
    getKey p.2 lockTimeKey = some p.1.now := by
  induction envs generalizing d v with
  | nil => simp [Dlock.retryLoop] at hp
  | cons e rest ih =>
      simp only [Dlock.retryLoop] at hp
      split at hp
      · rcases List.mem_singleton.mp hp with h
        subst h
        exact getKey_setKey_self v lockTimeKey e.now
      · rcases List.mem_cons.mp hp with h | h
        · subst h
          exact getKey_setKey_self v lockTimeKey e.now
        · exact ih _ _ h

/-! Helper lemmas about one acquisition attempt. -/

theorem client_acquire_matches_dlock (d : Dlock) (env : Env) (v : ValueMap) :
    (Client.acquireLock (toClient d) env v).state
        = toClient (Dlock.acquireLock d env v).state
  ∧ (Client.acquireLock (toClient d) env v).lock = (Dlock.acquireLock d env v).lock
  ∧ (Client.acquireLock (toClient d) env v).err = (Dlock.acquireLock d env v).err
  ∧ (Client.acquireLock (toClient d) env v).effects.sessionCreated
        = (Dlock.acquireLock d env v).effects.sessionCreated := by
  obtain ⟨key, sid, ri, ttl, pr⟩ := d
  by_cases hs : sid = "" <;>
  rcases env with ⟨now, e1 | cl, e2 | s2, mo, e3 | u, ⟨_ | a0, _ | e4⟩, e5 | (_ | _), dres⟩ <;>
  simp [Dlock.acquireLock, Client.acquireLock, createSession, toClient, hs, noEffects]

theorem dlock_acquire_renewal_iff_lock (d : Dlock) (env : Env) (v : ValueMap) :
    (Dlock.acquireLock d env v).effects.renewalStarted = (Dlock.acquireLock d env v).lock := by
  obtain ⟨key, sid, ri, ttl, pr⟩ := d
  by_cases hs : sid = "" <;>
  rcases env with ⟨now, e1 | cl, e2 | s2, mo, e3 | u, ⟨_ | a0, _ | e4⟩, e5 | (_ | _), dres⟩ <;>
  simp [Dlock.acquireLock, createSession, hs, noEffects]

theorem client_acquire_no_renewal (c : Client) (env : Env) (v : ValueMap) :
    (Client.acquireLock c env v).effects.renewalStarted = false := by
  obtain ⟨key, sid, ri, ttl⟩ := c
  by_cases hs : sid = "" <;>
  rcases env with ⟨now, e1 | cl, e2 | s2, mo, e3 | u, ⟨_ | a0, _ | e4⟩, e5 | (_ | _), dres⟩ <;>
  simp [Client.acquireLock, createSession, hs, noEffects]

theorem dlock_acquire_invalidation (d : Dlock) (env : Env) (v : ValueMap)
    (h1 : d.SessionID ≠ "" ∨ ∃ s, createSession env d.Key d.SessionTTL = Except.ok s)
    (h2 : env.lockOptsResult = Except.ok ())
    (h3 : env.infoResult = (none, none)) :
    (Dlock.acquireLock d env v).state.SessionID = ""
  ∧ (Dlock.acquireLock d env v).lock = false
  ∧ (Dlock.acquireLock d env v).err = none
  ∧ (Dlock.acquireLock d env v).effects.renewalStarted = false
  ∧ (Dlock.acquireLock d env v).effects.watcher = none := by
  by_cases hs : d.SessionID = ""
  · rcases h1 with h1 | ⟨s, hc⟩
    · exact absurd hs h1
    · simp [Dlock.acquireLock, hs, hc, h2, h3, noEffects]
  · simp [Dlock.acquireLock, hs, h2, h3, noEffects]

theorem dlock_acquire_watcher_of_lock (d : Dlock) (env : Env) (v : ValueMap)
    (h : (Dlock.acquireLock d env v).lock = true) :
    (Dlock.acquireLock d env v).effects.watcher = some releaseWatcherBody := by
  obtain ⟨key, sid, ri, ttl, pr⟩ := d
  by_cases hs : sid = "" <;>
  rcases env with ⟨now, e1 | cl, e2 | s2, mo, e3 | u, ⟨_ | a0, _ | e4⟩, e5 | (_ | _), dres⟩ <;>
  simp [Dlock.acquireLock, createSession, hs, noEffects] at h ⊢

/-! Claim theorems. -/

/-- C1: In every run of `RetryLockAcquire` exactly one `acquired` send
happens per successful attach (the send count equals the successful
attach count), no `acquired` send happens when `PermanentRelease` is
set at entry (the trace is empty then), and every successful attach is
followed by exactly `ticker.Stop` and the `acquired` send and then the
end of the run, so no further acquisition attempts are made; the same
send discipline holds for the legacy variant. -/
theorem c1_acquired_signal_discipline (d : Dlock) (c : Client) (v w : ValueMap)
    (envs fs : List Env) (key sid : String) (ri ttl : Nat) :
    countEv REvent.acquiredSend (Dlock.RetryLockAcquire d v envs).trace
      = countEv REvent.attachSuccess (Dlock.RetryLockAcquire d v envs).trace
  ∧ (Dlock.RetryLockAcquire ⟨key, sid, ri, ttl, true⟩ v envs).trace = []
  ∧ tailAfterSuccessOk (Dlock.RetryLockAcquire d v envs).trace = true
  ∧ countEv REvent.acquiredSend (Client.RetryLockAcquire c w fs).trace
      = countEv REvent.attachSuccess (Client.RetryLockAcquire c w fs).trace
  ∧ tailAfterSuccessOk (Client.RetryLockAcquire c w fs).trace = true := by
  refine ⟨?_, ?_, ?_, ?_, ?_⟩
  · by_cases hp : d.PermanentRelease = true
    · simp [Dlock.RetryLockAcquire, hp, countEv]
    · simp [Dlock.RetryLockAcquire, hp, dlock_retryLoop_count]
  · simp [Dlock.RetryLockAcquire]
  · by_cases hp : d.PermanentRelease = true
    · simp [Dlock.RetryLockAcquire, hp, tailAfterSuccessOk]
    · simp [Dlock.RetryLockAcquire, hp, dlock_retryLoop_tailOk]
  · exact client_retryLoop_count fs c w
  · exact client_retryLoop_tailOk fs c w

/-- C2 counterexample: a successful `DestroySession` (nil error, so the
session is now invalid and the client knows it) leaves `SessionID` at
its old non-empty value instead of clearing it, contradicting the claim
that every operation observing invalidation clears `SessionID`. -/
theorem c2_counterexample :
    (Dlock.DestroySession dlockEx envAttachOk).2.1 = none
  ∧ (Dlock.DestroySession dlockEx envAttachOk).1.SessionID = "sess-9"
  ∧ ¬ ((Dlock.DestroySession dlockEx envAttachOk).1.SessionID = "") := by decide

/-- C2 amended: `SessionID` is cleared on the session-invalidation
detection path of `acquireLock` (nil info entry with nil error), while
a successful `DestroySession` sets `PermanentRelease` but keeps
`SessionID` unchanged (it is later logged as the last session id). -/
theorem c2_session_id_clearing (d1 d2 : Dlock) (env1 env2 : Env) (v : ValueMap)
    (h1 : d1.SessionID ≠ "" ∨ ∃ s, createSession env1 d1.Key d1.SessionTTL = Except.ok s)
    (h2 : env1.lockOptsResult = Except.ok ())
    (h3 : env1.infoResult = (none, none))
    (h4 : d2.SessionID ≠ "") (h5 : env2.destroyResult = none) :
    (Dlock.acquireLock d1 env1 v).state.SessionID = ""
  ∧ (Dlock.DestroySession d2 env2).1.SessionID = d2.SessionID
  ∧ (Dlock.DestroySession d2 env2).1.PermanentRelease = true := by
  refine ⟨(dlock_acquire_invalidation d1 env1 v h1 h2 h3).1, ?_, ?_⟩
  · simp [Dlock.DestroySession, h4, h5]
  · simp [Dlock.DestroySession, h4, h5]

/-- C2 witness: the amended statement at concrete inputs. -/
theorem c2_witness :
    (Dlock.acquireLock dlockEx envSessionGone []).state.SessionID = ""
  ∧ (Dlock.DestroySession dlockEx envAttachOk).1.SessionID = dlockEx.SessionID
  ∧ (Dlock.DestroySession dlockEx envAttachOk).1.PermanentRelease = true :=
  c2_session_id_clearing dlockEx dlockEx envSessionGone envAttachOk []
    (Or.inl (by decide)) (by decide) (by decide) (by decide) (by decide)

/-- C3: with `PermanentRelease` set, `RetryLockAcquire` only logs and
returns: the client state and the caller value map are unchanged, the
trace is empty (no channel send) and no attempt is made (so no session
creation and no attach). -/
theorem c3_retry_noop_when_permanently_released (d : Dlock) (v : ValueMap)
    (envs : List Env) (h : d.PermanentRelease = true) :
    Dlock.RetryLockAcquire d v envs = ⟨d, v, [], []⟩ := by
  simp [Dlock.RetryLockAcquire, h]

/-- C3 witness at a concrete permanently released state. -/
theorem c3_witness :
    Dlock.RetryLockAcquire ⟨"LockKV", "sess-9", 30, 300, true⟩
        [("hostname", "h1")] [envAttachOk]
      = ⟨⟨"LockKV", "sess-9", 30, 300, true⟩, [("hostname", "h1")], [], []⟩ :=
  c3_retry_noop_when_permanently_released _ _ _ rfl

/-- C4: when `Session().Info` returns a nil entry with a nil error
(and control reaches that query: the session id is non-empty or was
just created, and `LockOpts` succeeded), `acquireLock` clears
`SessionID`, returns `(false, nil)`, and arms no release watcher, so
the tick ends without an error and without a `released` send and the
next tick recreates a session. -/
theorem c4_session_gone_detection (d : Dlock) (env : Env) (v : ValueMap)
    (h1 : d.SessionID ≠ "" ∨ ∃ s, createSession env d.Key d.SessionTTL = Except.ok s)
    (h2 : env.lockOptsResult = Except.ok ())
    (h3 : env.infoResult = (none, none)) :
    (Dlock.acquireLock d env v).state.SessionID = ""
  ∧ (Dlock.acquireLock d env v).lock = false
  ∧ (Dlock.acquireLock d env v).err = none
  ∧ (Dlock.acquireLock d env v).effects.watcher = none :=
  ⟨(dlock_acquire_invalidation d env v h1 h2 h3).1,
   (dlock_acquire_invalidation d env v h1 h2 h3).2.1,
   (dlock_acquire_invalidation d env v h1 h2 h3).2.2.1,
   (dlock_acquire_invalidation d env v h1 h2 h3).2.2.2.2⟩

/-- C4 witness: the session-gone tick at a concrete state. -/
theorem c4_witness :
    (Dlock.acquireLock dlockEx envSessionGone []).state.SessionID = ""
  ∧ (Dlock.acquireLock dlockEx envSessionGone []).lock = false
  ∧ (Dlock.acquireLock dlockEx envSessionGone []).err = none
  ∧ (Dlock.acquireLock dlockEx envSessionGone []).effects.watcher = none :=
  c4_session_gone_detection dlockEx envSessionGone []
    (Or.inl (by decide)) (by decide) (by decide)

/-- C5: with a non-empty `SessionID`, `DestroySession` sets
`PermanentRelease` and returns nil exactly when the collaborator
destroy succeeds; on a destroy error that error is returned and the
whole client state is unchanged. -/
theorem c5_destroy_nonempty (d : Dlock) (env : Env) (h : d.SessionID ≠ "") :
    (env.destroyResult = none →
      Dlock.DestroySession d env = ({ d with PermanentRelease := true }, none, true))
  ∧ ∀ e, env.destroyResult = some e → Dlock.DestroySession d env = (d, some e, true) := by
  constructor
  · intro hd
    simp [Dlock.DestroySession, h, hd]
  · intro e hd
    simp [Dlock.DestroySession, h, hd]

/-- C5 witness: both destroy outcomes at concrete inputs. -/
theorem c5_witness :
    Dlock.DestroySession dlockEx envAttachOk
      = ({ dlockEx with PermanentRelease := true }, none, true)
  ∧ Dlock.DestroySession dlockEx envDestroyErr = (dlockEx, some "destroy failed", true) :=
  ⟨(c5_destroy_nonempty dlockEx envAttachOk (by decide)).1 rfl,
   (c5_destroy_nonempty dlockEx envDestroyErr (by decide)).2 "destroy failed" rfl⟩

/-- C6 counterexample: in the current variant, `DestroySession` on an
empty `SessionID` returns nil without calling the collaborator but does
NOT set `PermanentRelease`, contradicting the claim that the current
variant sets it. -/
theorem c6_counterexample :
    Dlock.DestroySession dlockEmpty envAttachOk = (dlockEmpty, none, false)
  ∧ ¬ ((Dlock.DestroySession dlockEmpty envAttachOk).1.PermanentRelease = true) := by
  decide

/-- C6 amended: `DestroySession` on an empty `SessionID` returns nil
without calling the collaborator and leaves the client state (including
`PermanentRelease` in the current variant) unchanged, in both
variants. -/
theorem c6_destroy_empty_noop (d : Dlock) (c : Client) (e1 e2 : Env)
    (h1 : d.SessionID = "") (h2 : c.SessionID = "") :
    Dlock.DestroySession d e1 = (d, none, false)
  ∧ Client.DestroySession c e2 = (c, none, false) := by
  constructor
  · simp [Dlock.DestroySession, h1]
  · simp [Client.DestroySession, h2]

/-- C6 witness: the empty-session no-op at concrete inputs. -/
theorem c6_witness :
    Dlock.DestroySession dlockEmpty envAttachOk = (dlockEmpty, none, false)
  ∧ Client.DestroySession clientEmpty envDestroyErr = (clientEmpty, none, false) :=
  c6_destroy_empty_noop dlockEmpty clientEmpty envAttachOk envDestroyErr rfl rfl

/-- C7: on every acquisition attempt of a `RetryLockAcquire` run, not
only successful ones, the value map handed to `acquireLock` carries the
`lockAcquisitionTime` key set (injected or overwritten) to the tick
timestamp, stamped before the attach is attempted. -/
theorem c7_stamp_every_attempt (d : Dlock) (v : ValueMap) (envs : List Env)
    (p : Env × ValueMap) (hp : p ∈ (Dlock.RetryLockAcquire d v envs).attempts) :
    getKey p.2 lockTimeKey = some p.1.now := by
  by_cases hperm : d.PermanentRelease = true
  · simp [Dlock.RetryLockAcquire, hperm] at hp
  · simp only [Dlock.RetryLockAcquire, hperm, if_neg, Bool.not_eq_true] at hp
    exact dlock_retryLoop_attempts_stamped envs d v p hp

/-- C7 witness: the stamp of the single attempt of a concrete run. -/
theorem c7_witness :
    getKey (envAttachOk, setKey [("hostname", "h1")] lockTimeKey envAttachOk.now).2
        lockTimeKey
      = some (envAttachOk, setKey [("hostname", "h1")] lockTimeKey envAttachOk.now).1.now :=
  c7_stamp_every_attempt dlockEx [("hostname", "h1")] [envAttachOk]
    (envAttachOk, setKey [("hostname", "h1")] lockTimeKey envAttachOk.now) (by decide)

/-- C8: whenever an attach succeeds, the renewal task is started and
the armed release watcher closes the renewal cancellation channel
strictly before it sends on the `released` channel, so renewal cannot
outlive the `released` notification of the episode. -/
theorem c8_renewal_cancel_before_release (d : Dlock) (env : Env) (v : ValueMap)
    (h : (Dlock.acquireLock d env v).lock = true) :
    (Dlock.acquireLock d env v).effects.renewalStarted = true
  ∧ (Dlock.acquireLock d env v).effects.watcher = some releaseWatcherBody
  ∧ posOf WatcherStep.closeRenewalCancel releaseWatcherBody
      < posOf WatcherStep.sendReleased releaseWatcherBody := by
  refine ⟨?_, dlock_acquire_watcher_of_lock d env v h, by decide⟩
  rw [dlock_acquire_renewal_iff_lock]
  exact h

/-- C8 witness: a concrete successful attach. -/
theorem c8_witness :
    (Dlock.acquireLock dlockEx envAttachOk []).effects.renewalStarted = true
  ∧ (Dlock.acquireLock dlockEx envAttachOk []).effects.watcher = some releaseWatcherBody
  ∧ posOf WatcherStep.closeRenewalCancel releaseWatcherBody
      < posOf WatcherStep.sendReleased releaseWatcherBody :=
  c8_renewal_cancel_before_release dlockEx envAttachOk [] (by decide)

/-- C9 counterexample: a fourth behavioural difference between the two
variants, inside `acquireLock` itself: on the same successful input the
current variant starts the renewal task and arms a watcher that cancels
it, while the legacy variant starts no renewal and its watcher body
lacks the cancellation step — so the two `acquireLock` functions are
not otherwise equivalent as the claim states. -/
theorem c9_counterexample :
    (Dlock.acquireLock dlockEx envAttachOk []).lock = true
  ∧ (Client.acquireLock clientEx envAttachOk []).lock = true
  ∧ (Dlock.acquireLock dlockEx envAttachOk []).effects.renewalStarted = true
  ∧ (Client.acquireLock clientEx envAttachOk []).effects.renewalStarted = false
  ∧ (Dlock.acquireLock dlockEx envAttachOk []).effects.watcher = some releaseWatcherBody
  ∧ (Client.acquireLock clientEx envAttachOk []).effects.watcher = some clientWatcherBody
  ∧ releaseWatcherBody ≠ clientWatcherBody := by decide

/-- C9 amended: on every input the two `acquireLock` functions compute
identical state transitions, identical `(bool, error)` results and
identical session creation; they differ in the renewal side effects
(the current variant starts renewal exactly when the lock is attached,
the legacy one never), on top of the differences outside `acquireLock`
(default session TTL and whether destroy marks permanent release). -/
theorem c9_variants_equivalence (d : Dlock) (env : Env) (v : ValueMap) :
    (Client.acquireLock (toClient d) env v).state
        = toClient (Dlock.acquireLock d env v).state
  ∧ (Client.acquireLock (toClient d) env v).lock = (Dlock.acquireLock d env v).lock
  ∧ (Client.acquireLock (toClient d) env v).err = (Dlock.acquireLock d env v).err
  ∧ (Client.acquireLock (toClient d) env v).effects.sessionCreated
        = (Dlock.acquireLock d env v).effects.sessionCreated
  ∧ (Dlock.acquireLock d env v).effects.renewalStarted = (Dlock.acquireLock d env v).lock
  ∧ (Client.acquireLock (toClient d) env v).effects.renewalStarted = false
  ∧ Dlock.DefautSessionTTL ≠ Client.DefautSessionTTL := by
  obtain ⟨hst, hl, he, hc⟩ := client_acquire_matches_dlock d env v
  exact ⟨hst, hl, he, hc, dlock_acquire_renewal_iff_lock d env v,
    client_acquire_no_renewal (toClient d) env v, by decide⟩

/-- C10: a run of `RetryLockAcquire` that makes at least one attempt
mutates the caller value map in place: afterwards the map holds a
`lockAcquisitionTime` entry carrying the timestamp of one of the ticks
(overwriting whatever the caller stored there), and every other key is
unchanged; stated for a not permanently released current-variant client
and for the legacy variant. -/
theorem c10_value_map_in_place (d : Dlock) (c : Client) (v w : ValueMap)
    (envs fs : List Env) (h1 : d.PermanentRelease = false) (h2 : envs ≠ [])
    (h3 : fs ≠ []) :
    (∃ e, e ∈ envs ∧
       getKey (Dlock.RetryLockAcquire d v envs).value lockTimeKey = some e.now)
  ∧ (∀ k, k ≠ lockTimeKey →
       getKey (Dlock.RetryLockAcquire d v envs).value k = getKey v k)
  ∧ (∃ e, e ∈ fs ∧
       getKey (Client.RetryLockAcquire c w fs).value lockTimeKey = some e.now)
  ∧ (∀ k, k ≠ lockTimeKey →
       getKey (Client.RetryLockAcquire c w fs).value k = getKey w k) := by
  have hun : Dlock.RetryLockAcquire d v envs = Dlock.retryLoop d v envs := by
    simp [Dlock.RetryLockAcquire, h1]
  refine ⟨?_, ?_, ?_, ?_⟩
  · rcases envs with _ | ⟨e, rest⟩
    · exact absurd rfl h2
    · rw [hun]
      exact dlock_retryLoop_stamped rest e d v
  · intro k hk
    rw [hun]
    exact dlock_retryLoop_frame envs d v k hk
  · rcases fs with _ | ⟨e, rest⟩
    · exact absurd rfl h3
    · exact client_retryLoop_stamped rest e c w
  · intro k hk
    exact client_retryLoop_frame fs c w k hk

/-- C10 witness: a concrete failing run of the current variant and a
concrete legacy run. -/
theorem c10_witness :
    (∃ e, e ∈ [envNoOwnership] ∧
       getKey (Dlock.RetryLockAcquire dlockEx [("hostname", "h1")] [envNoOwnership]).value
           lockTimeKey
         = some e.now)
  ∧ (∀ k, k ≠ lockTimeKey →
       getKey (Dlock.RetryLockAcquire dlockEx [("hostname", "h1")] [envNoOwnership]).value k
         = getKey [("hostname", "h1")] k)
  ∧ (∃ e, e ∈ [envAttachOk] ∧
       getKey (Client.RetryLockAcquire clientEx [("hostname", "h2")] [envAttachOk]).value
           lockTimeKey
         = some e.now)
  ∧ (∀ k, k ≠ lockTimeKey →
       getKey (Client.RetryLockAcquire clientEx [("hostname", "h2")] [envAttachOk]).value k
         = getKey [("hostname", "h2")] k) :=
  c10_value_map_in_place dlockEx clientEx [("hostname", "h1")] [("hostname", "h2")]
    [envNoOwnership] [envAttachOk] rfl (by decide) (by decide)

end DlockSpec
